import Mathlib

/-!
Verification development for the hytopia-scene-builder repository.

The definitions below are shallow embeddings of the program's source:

* `RegionSelector.jsx` (browser region-selection editor): the
  `trimmedBounds` effect and the `handleDragMove` resize handler.
* `ExportWindow.java` (jmc2obj export configuration window):
  `updateEnabledSettings`, `updateOptions`, the thread spinner model,
  the texture-scale combo box, the force-stop button handler and
  `runExport`.
* `Settings.java` (`updateResourcePacks`): resource-pack list rebuild.
* `None.java` (`None.addModel`): the no-geometry block model.

Mutable Java/JS state becomes explicit state passing; machine numbers
become `Int`/`Rat` (the integer coordinates and counts involved stay far
from any overflow boundary); fallible parsing returns `Option`.
-/

namespace RegionSelector

/-- An axis-aligned selection bounds record, as used by the region
selector component (`bounds` state: minX/minY/minZ/maxX/maxY/maxZ). -/
structure Bounds where
  minX : Int
  minY : Int
  minZ : Int
  maxX : Int
  maxY : Int
  maxZ : Int
  deriving Repr, DecidableEq

/-- Embedding of the trimmed-bounds effect of `RegionSelector.jsx`
(lines 551-558): the minimum corner is kept and each max coordinate is
clamped to `min + MAX_IMPORT_SIZE - 1` for its axis.  The three
`MAX_IMPORT_SIZE_*` constants are imported from `constants/terrain` and
are passed here as parameters. -/
def trimmedBounds (b : Bounds) (maxSizeX maxSizeY maxSizeZ : Int) : Bounds :=
  { minX := b.minX
    minY := b.minY
    minZ := b.minZ
    maxX := min b.maxX (b.minX + maxSizeX - 1)
    maxY := min b.maxY (b.minY + maxSizeY - 1)
    maxZ := min b.maxZ (b.minZ + maxSizeZ - 1) }

/-- The eight drag-resize directions of the region selector
(`dragOperation` strings "n", "s", "e", "w", "ne", "nw", "se", "sw"). -/
inductive DragOp where
  | n | s | e | w | ne | nw | se | sw
  deriving Repr, DecidableEq

/-- Test for `dragOperation.includes("w")` on the direction strings. -/
def DragOp.includesW : DragOp → Bool
  | .w => true
  | .nw => true
  | .sw => true
  | _ => false

/-- Test for `dragOperation.includes("n")` on the direction strings. -/
def DragOp.includesN : DragOp → Bool
  | .n => true
  | .ne => true
  | .nw => true
  | _ => false

/-- The `switch (dragOperation)` of `handleDragMove` (lines 829-858):
starting from a copy of the current bounds, the dragged edge(s) are
moved to the drag-start bounds plus the mouse delta. -/
def applyDragOp (op : DragOp) (startB b : Bounds) (dX dZ : Int) : Bounds :=
  match op with
  | .n => { b with minZ := startB.minZ + dZ }
  | .s => { b with maxZ := startB.maxZ + dZ }
  | .e => { b with maxX := startB.maxX + dX }
  | .w => { b with minX := startB.minX + dX }
  | .ne => { b with minZ := startB.minZ + dZ, maxX := startB.maxX + dX }
  | .nw => { b with minZ := startB.minZ + dZ, minX := startB.minX + dX }
  | .se => { b with maxZ := startB.maxZ + dZ, maxX := startB.maxX + dX }
  | .sw => { b with maxZ := startB.maxZ + dZ, minX := startB.minX + dX }

/-- Lines 860-866 of `handleDragMove`: when `minX >= maxX` the edge on
the dragged side is pulled back so the bounds are one block apart. -/
def normalizeDragX (op : DragOp) (b : Bounds) : Bounds :=
  if b.minX ≥ b.maxX then
    if op.includesW then { b with minX := b.maxX - 1 }
    else { b with maxX := b.minX + 1 }
  else b

/-- Lines 867-873 of `handleDragMove`: the same normalization for the Z
axis, keyed on whether the drag includes the north edge. -/
def normalizeDragZ (op : DragOp) (b : Bounds) : Bounds :=
  if b.minZ ≥ b.maxZ then
    if op.includesN then { b with minZ := b.maxZ - 1 }
    else { b with maxZ := b.minZ + 1 }
  else b

/-- Lines 878-885 of `handleDragMove`: when the X extent exceeds
`MAX_IMPORT_SIZE_X` the dragged side is clamped so the extent equals the
maximum. -/
def clampDragX (op : DragOp) (b : Bounds) (maxSizeX : Int) : Bounds :=
  if b.maxX - b.minX + 1 > maxSizeX then
    if op.includesW then { b with minX := b.maxX - maxSizeX + 1 }
    else { b with maxX := b.minX + maxSizeX - 1 }
  else b

/-- Lines 886-893 of `handleDragMove`: the same clamp for the Z axis
against `MAX_IMPORT_SIZE_Z`. -/
def clampDragZ (op : DragOp) (b : Bounds) (maxSizeZ : Int) : Bounds :=
  if b.maxZ - b.minZ + 1 > maxSizeZ then
    if op.includesN then { b with minZ := b.maxZ - maxSizeZ + 1 }
    else { b with maxZ := b.minZ + maxSizeZ - 1 }
  else b

/-- The bounds-updating core of `handleDragMove` (lines 826-898): apply
the drag delta for the active operation, normalize each horizontal axis
to be non-degenerate, then clamp each horizontal extent to its
maximum import size.  The resulting bounds are what `setBounds`
receives. -/
def handleDragMove (op : DragOp) (startB b : Bounds) (dX dZ maxSizeX maxSizeZ : Int) :
    Bounds :=
  clampDragZ op (clampDragX op (normalizeDragZ op (normalizeDragX op
    (applyDragOp op startB b dX dZ))) maxSizeX) maxSizeZ

end RegionSelector

namespace Jmc2Obj

/-- Split a character list at every occurrence of a separator character
(used to model splitting a decimal literal at the point). -/
def splitOnChar (sep : Char) : List Char → List (List Char)
  | [] => [[]]
  | c :: rest =>
    let r := splitOnChar sep rest
    if c = sep then [] :: r
    else
      match r with
      | [] => [[c]]
      | h :: t => (c :: h) :: t

/-- Value of a list of decimal digit characters. -/
def digitsToNat (l : List Char) : Nat :=
  l.foldl (fun a c => a * 10 + (c.toNat - 48)) 0

/-- Model of `Float.parseFloat` / `Double.parseDouble` on the decimal
literals this GUI produces (an optional minus sign, an integer part and
an optional fractional part); `none` models `NumberFormatException`. -/
def parseDecimalList (l : List Char) : Option Rat :=
  let sgn : Rat := match l with | '-' :: _ => -1 | _ => 1
  let body : List Char := match l with | '-' :: r => r | r => r
  match splitOnChar '.' body with
  | [ip] =>
    if ip ≠ [] ∧ ip.all Char.isDigit then some (sgn * (digitsToNat ip : Rat))
    else none
  | [ip, fp] =>
    if (ip ≠ [] ∨ fp ≠ []) ∧ ip.all Char.isDigit ∧ fp.all Char.isDigit then
      some (sgn * ((digitsToNat ip : Rat) + (digitsToNat fp : Rat) / (10 : Rat) ^ fp.length))
    else none
  | _ => none

/-- Model of `Integer.parseInt` (an optional minus sign followed by
decimal digits); `none` models `NumberFormatException`. -/
def parseIntList : List Char → Option Int
  | '-' :: r =>
    if r ≠ [] ∧ r.all Char.isDigit then some (-(digitsToNat r : Int)) else none
  | r =>
    if r ≠ [] ∧ r.all Char.isDigit then some ((digitsToNat r : Int)) else none

/-- A Swing check box: its checked state and whether the control is
enabled. -/
structure JCheckBox where
  selected : Bool
  enabled : Bool
  deriving Repr, DecidableEq

/-- A Swing `SpinnerNumberModel` over integers: current value, bounds
and step, as constructed by `new SpinnerNumberModel(8, 1, 512, 1)`. -/
structure SpinnerNumberModel where
  value : Int
  minimum : Int
  maximum : Int
  stepSize : Int
  deriving Repr, DecidableEq

/-- The export-thread spinner model of `ExportWindow` line 442:
`new SpinnerNumberModel(8, 1, 512, 1)`. -/
def threadSpinnerModel : SpinnerNumberModel :=
  { value := 8, minimum := 1, maximum := 512, stepSize := 1 }

/-- The values a spinner with this model admits: integers between its
minimum and its maximum. -/
def SpinnerNumberModel.admits (m : SpinnerNumberModel) (v : Int) : Prop :=
  m.minimum ≤ v ∧ v ≤ m.maximum

instance (m : SpinnerNumberModel) (v : Int) : Decidable (m.admits v) := by
  unfold SpinnerNumberModel.admits
  exact instDecidableAnd

/-- Model of `SpinnerNumberModel.getNextValue`: the incremented value, or `none`
past the maximum (in which case the spinner stays unchanged). -/
def SpinnerNumberModel.nextValue (m : SpinnerNumberModel) : Option Int :=
  if m.value + m.stepSize ≤ m.maximum then some (m.value + m.stepSize) else none

/-- Model of `SpinnerNumberModel.getPreviousValue`: the decremented value, or
`none` below the minimum. -/
def SpinnerNumberModel.previousValue (m : SpinnerNumberModel) : Option Int :=
  if m.minimum ≤ m.value - m.stepSize then some (m.value - m.stepSize) else none

/-- The texture pre-scale combo box items of `ExportWindow` line 248:
a model holding exactly the five strings 1x, 2x, 4x, 8x, 16x.
The combo box is not editable, so its selected item is always a member
of this list. -/
def cboxTexScaleItems : List String := ["1x", "2x", "4x", "8x", "16x"]

/-- Embedding of `Options.OffsetType` of the jmc2obj options. -/
inductive OffsetType where
  | NONE | CENTER | CUSTOM
  deriving Repr, DecidableEq

/-- The subset of the global `org.jmc.Options` fields written by
`ExportWindow.updateOptions`. -/
structure Options where
  scale : Rat
  offsetX : Int
  offsetZ : Int
  offsetType : OffsetType
  renderSides : Bool
  renderBiomes : Bool
  renderEntities : Bool
  renderUnknown : Bool
  objectPerMaterial : Bool
  objectPerMaterialOcclusion : Bool
  objectPerChunk : Bool
  objectPerBlock : Bool
  objectPerBlockOcclusion : Bool
  randBlockVariations : Bool
  doubleSidedFaces : Bool
  optimiseGeometry : Bool
  convertOres : Bool
  removeDuplicates : Bool
  useLastSaveLoc : Bool
  textureScale : Rat
  exportTex : Bool
  textureAlpha : Bool
  textureNormal : Bool
  textureSpecular : Bool
  textureMerge : Bool
  textureLight : Bool
  singleMaterial : Bool
  exportThreads : Int
  objUseGroup : Bool
  deriving Repr, DecidableEq

/-- The state of the `ExportWindow` controls read by
`updateEnabledSettings` and `updateOptions`. -/
structure ExportWindowState where
  textFieldMapScale : String
  txtX : String
  txtZ : String
  rdbtnNoneSelected : Bool
  rdbtnCenterSelected : Bool
  rdbtnCustomSelected : Bool
  chckbxRenderWorldSides : JCheckBox
  chckbxRenderBiomes : JCheckBox
  chckbxRenderEntities : JCheckBox
  chckbxRenderUnknownBlocks : JCheckBox
  chckbxSeparateMat : JCheckBox
  chckbxSeparateMatOccl : JCheckBox
  chckbxSeparateChunk : JCheckBox
  chckbxSeparateBlock : JCheckBox
  chckbxSeparateBlockOccl : JCheckBox
  chckbxRandBlockVariation : JCheckBox
  chckbxDoubleSidedFaces : JCheckBox
  chckbxOptimiseGeo : JCheckBox
  chckbxConvertOreTo : JCheckBox
  chckbxMergeVerticies : JCheckBox
  chckbxUseLastSaveLoc : JCheckBox
  cboxTexScaleSelected : String
  chckbxExportTextures : JCheckBox
  chckbxSeparateAlphaTexture : JCheckBox
  chckbxExportNormalMaps : JCheckBox
  chckbxExportSpecularMaps : JCheckBox
  chckbxCombineAllTextures : JCheckBox
  chckbxExportSeparateLight : JCheckBox
  chckbxSingleMat : JCheckBox
  chckbxObjUseGroup : JCheckBox
  spinnerThreads : Int
  deriving Repr, DecidableEq

/-- Embedding of `ExportWindow.updateEnabledSettings` (lines 1034-1062).  The first
block is the live `else` branch of the commented-out single-texture
code; the second keys the per-block grouping exclusions; the third
enables the per-material occlusion sub-flag only while per-material is
selected and enabled. -/
def updateEnabledSettings (st : ExportWindowState) : ExportWindowState :=
  let st := { st with
    chckbxExportSeparateLight := { st.chckbxExportSeparateLight with enabled := false }
    chckbxSingleMat := { st.chckbxSingleMat with enabled := false }
    chckbxOptimiseGeo := { st.chckbxOptimiseGeo with enabled := true } }
  let st :=
    if st.chckbxSeparateBlock.selected then
      { st with
        chckbxSeparateBlockOccl := { st.chckbxSeparateBlockOccl with enabled := true }
        chckbxSeparateMat := { st.chckbxSeparateMat with enabled := false }
        chckbxSeparateChunk := { st.chckbxSeparateChunk with enabled := false }
        chckbxOptimiseGeo := { st.chckbxOptimiseGeo with enabled := false } }
    else
      { st with
        chckbxSeparateBlockOccl := { st.chckbxSeparateBlockOccl with enabled := false }
        chckbxSeparateMat := { st.chckbxSeparateMat with enabled := true }
        chckbxSeparateChunk := { st.chckbxSeparateChunk with enabled := true }
        chckbxOptimiseGeo := { st.chckbxOptimiseGeo with enabled := true } }
  if st.chckbxSeparateMat.selected && st.chckbxSeparateMat.enabled then
    { st with chckbxSeparateMatOccl := { st.chckbxSeparateMatOccl with enabled := true } }
  else
    { st with chckbxSeparateMatOccl := { st.chckbxSeparateMatOccl with enabled := false } }

/-- The `Options.scale` assignment of `updateOptions` (lines 1066-1071):
the parsed map-scale text, or 1.0 when `Float.parseFloat` throws. -/
def scaleAfter (st : ExportWindowState) : Rat :=
  match parseDecimalList st.textFieldMapScale.data with
  | some v => v
  | none => 1

/-- Whether the `Integer.parseInt(txtX)` call of `updateOptions`
(line 1076) throws, aborting the rest of its `try` block. -/
def offsetXThrew (st : ExportWindowState) : Bool :=
  if st.txtX.data = [] ∨ st.txtX.data = ['-'] then false
  else (parseIntList st.txtX.data).isNone

/-- Value of `Options.offsetX` after `updateOptions` (lines 1074-1076): parsed
from `txtX` when the text is non-empty, not `"-"`, and parses; kept
otherwise. -/
def offsetXAfter (st : ExportWindowState) (o : Options) : Int :=
  if st.txtX.data = [] ∨ st.txtX.data = ['-'] then o.offsetX
  else
    match parseIntList st.txtX.data with
    | some v => v
    | none => o.offsetX

/-- Value of `Options.offsetZ` after `updateOptions` (lines 1077-1079): like
`offsetX`, but also skipped when the `txtX` parse already threw. -/
def offsetZAfter (st : ExportWindowState) (o : Options) : Int :=
  if offsetXThrew st then o.offsetZ
  else if st.txtZ.data = [] ∨ st.txtZ.data = ['-'] then o.offsetZ
  else
    match parseIntList st.txtZ.data with
    | some v => v
    | none => o.offsetZ

/-- Value of `Options.textureScale` after `updateOptions` (lines 1108-1118): the
selected combo item with a trailing `x` stripped, parsed as a double;
the old value is kept when the text is empty or unparseable. -/
def textureScaleAfter (st : ExportWindowState) (o : Options) : Rat :=
  let txt := st.cboxTexScaleSelected.data
  if txt = [] then o.textureScale
  else
    let txt := if txt.getLast? = some 'x' then txt.dropLast else txt
    match parseDecimalList txt with
    | some v => v
    | none => o.textureScale

/-- Embedding of `ExportWindow.updateOptions` (lines 1064-1131): write every
GUI-controlled option into the options record. -/
def updateOptions (st : ExportWindowState) (o : Options) : Options :=
  { scale := scaleAfter st
    offsetX := offsetXAfter st o
    offsetZ := offsetZAfter st o
    offsetType :=
      if st.rdbtnCenterSelected then OffsetType.CENTER
      else if st.rdbtnCustomSelected then OffsetType.CUSTOM
      else OffsetType.NONE
    renderSides := st.chckbxRenderWorldSides.selected
    renderBiomes := st.chckbxRenderBiomes.selected
    renderEntities := st.chckbxRenderEntities.selected
    renderUnknown := st.chckbxRenderUnknownBlocks.selected
    objectPerMaterial := st.chckbxSeparateMat.selected && st.chckbxSeparateMat.enabled
    objectPerMaterialOcclusion := st.chckbxSeparateMatOccl.selected
    objectPerChunk := st.chckbxSeparateChunk.selected && st.chckbxSeparateChunk.enabled
    objectPerBlock := st.chckbxSeparateBlock.selected
    objectPerBlockOcclusion := st.chckbxSeparateBlockOccl.selected
    randBlockVariations := st.chckbxRandBlockVariation.selected
    doubleSidedFaces := st.chckbxDoubleSidedFaces.selected
    optimiseGeometry := st.chckbxOptimiseGeo.selected && st.chckbxOptimiseGeo.enabled
    convertOres := st.chckbxConvertOreTo.selected
    removeDuplicates := st.chckbxMergeVerticies.selected
    useLastSaveLoc := st.chckbxUseLastSaveLoc.selected
    textureScale := textureScaleAfter st o
    exportTex := st.chckbxExportTextures.selected
    textureAlpha := st.chckbxSeparateAlphaTexture.selected
    textureNormal := st.chckbxExportNormalMaps.selected
    textureSpecular := st.chckbxExportSpecularMaps.selected
    textureMerge := st.chckbxCombineAllTextures.selected
    textureLight := st.chckbxExportSeparateLight.selected && st.chckbxExportSeparateLight.enabled
    singleMaterial := st.chckbxSingleMat.selected && st.chckbxSingleMat.enabled
    exportThreads := st.spinnerThreads
    objUseGroup := st.chckbxObjUseGroup.selected }

/-- The settings pipeline run by `loadSettings` (lines 951-953) and
`saveSettings` (lines 961-963): `updateEnabledSettings()` followed by
`updateOptions()`. -/
def refreshOptions (st : ExportWindowState) (o : Options) : Options :=
  updateOptions (updateEnabledSettings st) o

/-- A Java thread as observed by the export window: only its
interrupted status matters here. -/
structure JavaThread where
  interrupted : Bool
  deriving Repr, DecidableEq

/-- The export-thread related state of `ExportWindow`: the
`exportThread` field and the two buttons' enabled state. -/
structure ExportThreadState where
  exportThread : Option JavaThread
  btnStartExportEnabled : Bool
  btnForceStopEnabled : Bool
  deriving Repr, DecidableEq

/-- The `btnForceStop` action listener (lines 854-861):
`if (exportThread != null) exportThread.interrupt();`. -/
def btnForceStopAction (s : ExportThreadState) : ExportThreadState :=
  match s.exportThread with
  | none => s
  | some t => { s with exportThread := some { t with interrupted := true } }

/-- Embedding of `ExportWindow.runExport` (lines 877-894): disable start, enable
force-stop, interrupt any previous export thread, and start a fresh
(un-interrupted) export thread.  The second component is the previous
thread after the handler ran (its interrupted flag raised), so the
preemptive interruption stays observable. -/
def runExport (s : ExportThreadState) : ExportThreadState × Option JavaThread :=
  ({ exportThread := some { interrupted := false }
     btnStartExportEnabled := false
     btnForceStopEnabled := true },
   s.exportThread.map (fun t => { t with interrupted := true }))

/-- Embedding of `Settings.updateResourcePacks` (Settings.java lines 570-594) as a
function of the pack list shown in the settings dialog, the
use-default-pack check box, and the result of
`Filesystem.getMinecraftJar()` (`none` when no minecraft jar is found):
the option list is rebuilt as the user packs in order, with the
minecraft jar appended last only when the option is on and a jar was
found. -/
def updateResourcePacks (listPacks : List String) (usePackDefault : Bool)
    (minecraftJar : Option String) : List String :=
  let resPacks := listPacks
  if usePackDefault then
    match minecraftJar with
    | some mc => resPacks ++ [mc]
    | none => resPacks
  else resPacks

/-- A default check box state: Swing components are enabled on
construction; the selected flag is the loaded preference value. -/
def defaultCheckBox (b : Bool) : JCheckBox := { selected := b, enabled := true }

/-- A concrete `ExportWindow` control state holding the preference
defaults of `loadSettings` (lines 896-949); used as the starting point
for concrete evaluations.  The texture-scale combo keeps its first item
because the non-editable combo ignores `setSelectedItem` on a string
not in its model. -/
def baseExportWindowState : ExportWindowState :=
  { textFieldMapScale := "1.0"
    txtX := "0"
    txtZ := "0"
    rdbtnNoneSelected := true
    rdbtnCenterSelected := false
    rdbtnCustomSelected := false
    chckbxRenderWorldSides := defaultCheckBox false
    chckbxRenderBiomes := defaultCheckBox true
    chckbxRenderEntities := defaultCheckBox true
    chckbxRenderUnknownBlocks := defaultCheckBox true
    chckbxSeparateMat := defaultCheckBox false
    chckbxSeparateMatOccl := defaultCheckBox true
    chckbxSeparateChunk := defaultCheckBox false
    chckbxSeparateBlock := defaultCheckBox false
    chckbxSeparateBlockOccl := defaultCheckBox false
    chckbxRandBlockVariation := defaultCheckBox false
    chckbxDoubleSidedFaces := defaultCheckBox false
    chckbxOptimiseGeo := defaultCheckBox true
    chckbxConvertOreTo := defaultCheckBox true
    chckbxMergeVerticies := defaultCheckBox false
    chckbxUseLastSaveLoc := defaultCheckBox false
    cboxTexScaleSelected := "1x"
    chckbxExportTextures := defaultCheckBox true
    chckbxSeparateAlphaTexture := defaultCheckBox false
    chckbxExportNormalMaps := defaultCheckBox false
    chckbxExportSpecularMaps := defaultCheckBox false
    chckbxCombineAllTextures := defaultCheckBox false
    chckbxExportSeparateLight := defaultCheckBox false
    chckbxSingleMat := defaultCheckBox false
    chckbxObjUseGroup := defaultCheckBox false
    spinnerThreads := 8 }

/-- An arbitrary concrete pre-state for the options record, used only
as the old value fed to `updateOptions` in concrete evaluations; every
field a claim inspects is overwritten by `updateOptions`. -/
def initialOptions : Options :=
  { scale := 1
    offsetX := 0
    offsetZ := 0
    offsetType := OffsetType.NONE
    renderSides := false
    renderBiomes := true
    renderEntities := true
    renderUnknown := true
    objectPerMaterial := false
    objectPerMaterialOcclusion := true
    objectPerChunk := false
    objectPerBlock := false
    objectPerBlockOcclusion := false
    randBlockVariations := false
    doubleSidedFaces := false
    optimiseGeometry := true
    convertOres := true
    removeDuplicates := false
    useLastSaveLoc := false
    textureScale := 1
    exportTex := true
    textureAlpha := false
    textureNormal := false
    textureSpecular := false
    textureMerge := false
    textureLight := false
    singleMaterial := false
    exportThreads := 8
    objUseGroup := false }

end Jmc2Obj

namespace JmcModels

/-- A namespaced identifier (`org.jmc.registry.NamespaceID`): a
namespace and a path. -/
structure NamespaceID where
  ns : String
  path : String
  deriving Repr, DecidableEq

/-- Block data (`org.jmc.BlockData`): the block id plus its state
properties. -/
structure BlockData where
  id : NamespaceID
  state : List (String × String)
  deriving Repr, DecidableEq

/-- One textured face of the mesh output. -/
structure Face where
  vertices : List (Int × Int × Int)
  texture : NamespaceID
  deriving Repr, DecidableEq

/-- Modelled from the spec: `org.jmc.threading.ChunkProcessor` is not
under src/ (only `None.addModel`, its caller surface, is); per the spec
it is the mesh accumulator a block model adds its generated faces to,
so it is modelled as the list of faces added so far. -/
structure ChunkProcessor where
  faces : List Face
  deriving Repr, DecidableEq

/-- Modelled from the spec: `org.jmc.threading.ThreadChunkDeligate` is
not under src/; per the spec it is a read-only boundary accessor giving
block lookups by absolute coordinate. -/
structure ThreadChunkDeligate where
  blockAt : Int → Int → Int → Option BlockData

/-- Embedding of `None.addModel` (None.java lines 15-19): the dummy block model's
`addModel` has an empty body, so the chunk processor is returned
untouched and no geometry is produced. -/
def None.addModel (obj : ChunkProcessor) (chunks : ThreadChunkDeligate)
    (x y z : Int) (data : BlockData) (biome : NamespaceID) : ChunkProcessor :=
  obj

end JmcModels

namespace RegionSelector

/-- C5: bounds trimming is anchored at the requested minimum corner:
the trimmed bounds keep minX, minY, minZ unchanged, set each max
coordinate to the minimum of the requested max and the corresponding
min plus the per-axis maximum import size minus one, and no trimmed
axis extent exceeds the configured per-axis maximum. -/
theorem trimmedBounds_anchored_at_min (b : Bounds) (maxSizeX maxSizeY maxSizeZ : Int) :
    (trimmedBounds b maxSizeX maxSizeY maxSizeZ).minX = b.minX ∧
    (trimmedBounds b maxSizeX maxSizeY maxSizeZ).minY = b.minY ∧
    (trimmedBounds b maxSizeX maxSizeY maxSizeZ).minZ = b.minZ ∧
    (trimmedBounds b maxSizeX maxSizeY maxSizeZ).maxX = min b.maxX (b.minX + maxSizeX - 1) ∧
    (trimmedBounds b maxSizeX maxSizeY maxSizeZ).maxY = min b.maxY (b.minY + maxSizeY - 1) ∧
    (trimmedBounds b maxSizeX maxSizeY maxSizeZ).maxZ = min b.maxZ (b.minZ + maxSizeZ - 1) ∧
    (trimmedBounds b maxSizeX maxSizeY maxSizeZ).maxX -
      (trimmedBounds b maxSizeX maxSizeY maxSizeZ).minX + 1 ≤ maxSizeX ∧
    (trimmedBounds b maxSizeX maxSizeY maxSizeZ).maxY -
      (trimmedBounds b maxSizeX maxSizeY maxSizeZ).minY + 1 ≤ maxSizeY ∧
    (trimmedBounds b maxSizeX maxSizeY maxSizeZ).maxZ -
      (trimmedBounds b maxSizeX maxSizeY maxSizeZ).minZ + 1 ≤ maxSizeZ := by
  refine ⟨rfl, rfl, rfl, rfl, rfl, rfl, ?_, ?_, ?_⟩ <;>
    (simp only [trimmedBounds]; omega)

theorem normalizeDragX_spec (op : DragOp) (b : Bounds) :
    (normalizeDragX op b).minX < (normalizeDragX op b).maxX ∧
    (normalizeDragX op b).minZ = b.minZ ∧
    (normalizeDragX op b).maxZ = b.maxZ := by
  unfold normalizeDragX
  split_ifs <;> simp <;> omega

theorem normalizeDragZ_spec (op : DragOp) (b : Bounds) :
    (normalizeDragZ op b).minZ < (normalizeDragZ op b).maxZ ∧
    (normalizeDragZ op b).minX = b.minX ∧
    (normalizeDragZ op b).maxX = b.maxX := by
  unfold normalizeDragZ
  split_ifs <;> simp <;> omega

theorem clampDragX_spec (op : DragOp) (b : Bounds) (maxSizeX : Int)
    (h : b.minX < b.maxX) (hm : 2 ≤ maxSizeX) :
    (clampDragX op b maxSizeX).minX < (clampDragX op b maxSizeX).maxX ∧
    (clampDragX op b maxSizeX).maxX - (clampDragX op b maxSizeX).minX + 1 ≤ maxSizeX ∧
    (clampDragX op b maxSizeX).minZ = b.minZ ∧
    (clampDragX op b maxSizeX).maxZ = b.maxZ := by
  unfold clampDragX
  split_ifs <;> simp <;> omega

theorem clampDragZ_spec (op : DragOp) (b : Bounds) (maxSizeZ : Int)
    (h : b.minZ < b.maxZ) (hm : 2 ≤ maxSizeZ) :
    (clampDragZ op b maxSizeZ).minZ < (clampDragZ op b maxSizeZ).maxZ ∧
    (clampDragZ op b maxSizeZ).maxZ - (clampDragZ op b maxSizeZ).minZ + 1 ≤ maxSizeZ ∧
    (clampDragZ op b maxSizeZ).minX = b.minX ∧
    (clampDragZ op b maxSizeZ).maxX = b.maxX := by
  unfold clampDragZ
  split_ifs <;> simp <;> omega

/-- C10: after every horizontal drag-resize step, the bounds handed to
setBounds are well-formed and within the import limits: minX < maxX,
minZ < maxZ, and each horizontal extent is at most its maximum import
size, for every drag direction, drag-start bounds, current bounds and
mouse delta (the maximum import sizes are configured constants, assumed
at least 2). -/
theorem handleDragMove_bounds_wf (op : DragOp) (startB b : Bounds)
    (dX dZ maxSizeX maxSizeZ : Int) (hX : 2 ≤ maxSizeX) (hZ : 2 ≤ maxSizeZ) :
    (handleDragMove op startB b dX dZ maxSizeX maxSizeZ).minX <
      (handleDragMove op startB b dX dZ maxSizeX maxSizeZ).maxX ∧
    (handleDragMove op startB b dX dZ maxSizeX maxSizeZ).minZ <
      (handleDragMove op startB b dX dZ maxSizeX maxSizeZ).maxZ ∧
    (handleDragMove op startB b dX dZ maxSizeX maxSizeZ).maxX -
      (handleDragMove op startB b dX dZ maxSizeX maxSizeZ).minX + 1 ≤ maxSizeX ∧
    (handleDragMove op startB b dX dZ maxSizeX maxSizeZ).maxZ -
      (handleDragMove op startB b dX dZ maxSizeX maxSizeZ).minZ + 1 ≤ maxSizeZ := by
  unfold handleDragMove
  obtain ⟨h1, _, _⟩ := normalizeDragX_spec op (applyDragOp op startB b dX dZ)
  obtain ⟨h2, h2a, h2b⟩ :=
    normalizeDragZ_spec op (normalizeDragX op (applyDragOp op startB b dX dZ))
  have h1' : (normalizeDragZ op (normalizeDragX op (applyDragOp op startB b dX dZ))).minX <
      (normalizeDragZ op (normalizeDragX op (applyDragOp op startB b dX dZ))).maxX := by
    rw [h2a, h2b]; exact h1
  obtain ⟨h3, h3e, h3a, h3b⟩ :=
    clampDragX_spec op (normalizeDragZ op (normalizeDragX op (applyDragOp op startB b dX dZ)))
      maxSizeX h1' hX
  have h2' : (clampDragX op
      (normalizeDragZ op (normalizeDragX op (applyDragOp op startB b dX dZ))) maxSizeX).minZ <
      (clampDragX op
      (normalizeDragZ op (normalizeDragX op (applyDragOp op startB b dX dZ))) maxSizeX).maxZ := by
    rw [h3a, h3b]; exact h2
  obtain ⟨h4, h4e, h4a, h4b⟩ :=
    clampDragZ_spec op (clampDragX op
      (normalizeDragZ op (normalizeDragX op (applyDragOp op startB b dX dZ))) maxSizeX)
      maxSizeZ h2' hZ
  refine ⟨?_, h4, ?_, h4e⟩
  · rw [h4a, h4b]; exact h3
  · rw [h4a, h4b]; exact h3e

/-- Witness for C10: the invariant instantiated on a concrete eastward
drag of the box from (0,0,0) to (10,10,10) with delta 3 and with both
maximum import sizes at 500. -/
theorem handleDragMove_bounds_wf_witness :
    (handleDragMove DragOp.e ⟨0, 0, 0, 10, 10, 10⟩ ⟨0, 0, 0, 10, 10, 10⟩ 3 0 500 500).minX <
      (handleDragMove DragOp.e ⟨0, 0, 0, 10, 10, 10⟩ ⟨0, 0, 0, 10, 10, 10⟩ 3 0 500 500).maxX ∧
    (handleDragMove DragOp.e ⟨0, 0, 0, 10, 10, 10⟩ ⟨0, 0, 0, 10, 10, 10⟩ 3 0 500 500).minZ <
      (handleDragMove DragOp.e ⟨0, 0, 0, 10, 10, 10⟩ ⟨0, 0, 0, 10, 10, 10⟩ 3 0 500 500).maxZ ∧
    (handleDragMove DragOp.e ⟨0, 0, 0, 10, 10, 10⟩ ⟨0, 0, 0, 10, 10, 10⟩ 3 0 500 500).maxX -
      (handleDragMove DragOp.e ⟨0, 0, 0, 10, 10, 10⟩ ⟨0, 0, 0, 10, 10, 10⟩ 3 0 500 500).minX + 1 ≤ 500 ∧
    (handleDragMove DragOp.e ⟨0, 0, 0, 10, 10, 10⟩ ⟨0, 0, 0, 10, 10, 10⟩ 3 0 500 500).maxZ -
      (handleDragMove DragOp.e ⟨0, 0, 0, 10, 10, 10⟩ ⟨0, 0, 0, 10, 10, 10⟩ 3 0 500 500).minZ + 1 ≤ 500 :=
  handleDragMove_bounds_wf DragOp.e ⟨0, 0, 0, 10, 10, 10⟩ ⟨0, 0, 0, 10, 10, 10⟩ 3 0 500 500
    (by norm_num) (by norm_num)

end RegionSelector

namespace Jmc2Obj

/-- Counterexample for C1: with an un-interrupted export thread in
progress, the force-stop button handler raises the thread's interrupted
status (it does not leave the thread un-interrupted), and starting a
new export also interrupts the previous thread preemptively. -/
theorem btnForceStop_interrupts_thread :
    (btnForceStopAction ⟨some ⟨false⟩, false, true⟩).exportThread =
      some { interrupted := true } ∧
    (runExport ⟨some ⟨false⟩, false, true⟩).2 = some { interrupted := true } :=
  ⟨rfl, rfl⟩

/-- C1 (amended): cancellation is preemptive, not cooperative: whenever
an export thread exists, the force-stop action calls interrupt on it,
and starting a new export interrupts the previous export thread before
replacing it. -/
theorem exportThread_interrupted_on_stop (s : ExportThreadState) (t : JavaThread)
    (h : s.exportThread = some t) :
    (btnForceStopAction s).exportThread = some { t with interrupted := true } ∧
    (runExport s).2 = some { t with interrupted := true } := by
  constructor
  · unfold btnForceStopAction
    rw [h]
  · unfold runExport
    rw [h]
    rfl

/-- Witness for C1 (amended): the interruption observed on a concrete
state holding one un-interrupted export thread. -/
theorem exportThread_interrupted_on_stop_witness :
    (btnForceStopAction ⟨some ⟨false⟩, true, false⟩).exportThread =
      some { interrupted := true } ∧
    (runExport ⟨some ⟨false⟩, true, false⟩).2 = some { interrupted := true } :=
  exportThread_interrupted_on_stop ⟨some ⟨false⟩, true, false⟩ ⟨false⟩ rfl

/-- Counterexample for C2: checking both the per-material and the
per-chunk boxes (per-block unchecked) is a reachable configuration, and
after the updateEnabledSettings/updateOptions pipeline both
objectPerMaterial and objectPerChunk are true. -/
theorem objectPerMaterial_and_chunk_both_true :
    (refreshOptions { baseExportWindowState with
        chckbxSeparateMat := { selected := true, enabled := true }
        chckbxSeparateChunk := { selected := true, enabled := true } }
      initialOptions).objectPerMaterial = true ∧
    (refreshOptions { baseExportWindowState with
        chckbxSeparateMat := { selected := true, enabled := true }
        chckbxSeparateChunk := { selected := true, enabled := true } }
      initialOptions).objectPerChunk = true := by
  constructor <;> rfl

/-- C2 (amended): the grouping exclusion implemented by the window is
keyed on per-block, not between per-chunk and per-material: when the
per-block box is checked, updateEnabledSettings disables both other
grouping boxes, so after updateOptions the objectPerMaterial and
objectPerChunk flags are both false; per-material and per-chunk
themselves are not mutually exclusive. -/
theorem perBlock_disables_material_and_chunk (st : ExportWindowState) (o : Options)
    (h : st.chckbxSeparateBlock.selected = true) :
    (refreshOptions st o).objectPerMaterial = false ∧
    (refreshOptions st o).objectPerChunk = false := by
  simp [refreshOptions, updateOptions, updateEnabledSettings, h]

/-- Witness for C2 (amended): the per-block exclusion evaluated on a
concrete state with per-block, per-material and per-chunk all
checked. -/
theorem perBlock_disables_material_and_chunk_witness :
    (refreshOptions { baseExportWindowState with
        chckbxSeparateBlock := { selected := true, enabled := true }
        chckbxSeparateMat := { selected := true, enabled := true }
        chckbxSeparateChunk := { selected := true, enabled := true } }
      initialOptions).objectPerMaterial = false ∧
    (refreshOptions { baseExportWindowState with
        chckbxSeparateBlock := { selected := true, enabled := true }
        chckbxSeparateMat := { selected := true, enabled := true }
        chckbxSeparateChunk := { selected := true, enabled := true } }
      initialOptions).objectPerChunk = false :=
  perBlock_disables_material_and_chunk { baseExportWindowState with
      chckbxSeparateBlock := { selected := true, enabled := true }
      chckbxSeparateMat := { selected := true, enabled := true }
      chckbxSeparateChunk := { selected := true, enabled := true } }
    initialOptions rfl

/-- Counterexample for C3: with per-block grouping checked together
with merge-duplicate-vertices, the pipeline leaves removeDuplicates
true (only optimiseGeometry is forced off), contradicting the claim
that both flags are false under per-block grouping. -/
theorem perBlock_removeDuplicates_stays_true :
    (refreshOptions { baseExportWindowState with
        chckbxSeparateBlock := { selected := true, enabled := true }
        chckbxMergeVerticies := { selected := true, enabled := true } }
      initialOptions).removeDuplicates = true ∧
    (refreshOptions { baseExportWindowState with
        chckbxSeparateBlock := { selected := true, enabled := true }
        chckbxMergeVerticies := { selected := true, enabled := true } }
      initialOptions).optimiseGeometry = false := by
  constructor <;> rfl

/-- C3 (amended): per-block grouping is incompatible with
optimize-geometry only: when the per-block box is checked, after the
pipeline optimiseGeometry is false, while removeDuplicates simply
follows the merge-duplicate-vertices box unaffected by per-block. -/
theorem perBlock_disables_optimiseGeometry (st : ExportWindowState) (o : Options)
    (h : st.chckbxSeparateBlock.selected = true) :
    (refreshOptions st o).optimiseGeometry = false ∧
    (refreshOptions st o).removeDuplicates = st.chckbxMergeVerticies.selected := by
  simp [refreshOptions, updateOptions, updateEnabledSettings, h]

/-- Witness for C3 (amended): evaluated on a concrete state with
per-block and merge-duplicate-vertices both checked. -/
theorem perBlock_disables_optimiseGeometry_witness :
    (refreshOptions { baseExportWindowState with
        chckbxSeparateBlock := { selected := true, enabled := true }
        chckbxMergeVerticies := { selected := true, enabled := true } }
      initialOptions).optimiseGeometry = false ∧
    (refreshOptions { baseExportWindowState with
        chckbxSeparateBlock := { selected := true, enabled := true }
        chckbxMergeVerticies := { selected := true, enabled := true } }
      initialOptions).removeDuplicates = ({ baseExportWindowState with
        chckbxSeparateBlock := { selected := true, enabled := true }
        chckbxMergeVerticies := { selected := true, enabled := true }
        : ExportWindowState }).chckbxMergeVerticies.selected :=
  perBlock_disables_optimiseGeometry { baseExportWindowState with
      chckbxSeparateBlock := { selected := true, enabled := true }
      chckbxMergeVerticies := { selected := true, enabled := true } }
    initialOptions rfl

end Jmc2Obj

namespace Jmc2Obj

/-- Counterexample for C4: with the use-default option enabled but no
minecraft jar found by the filesystem lookup, the rebuilt list is
exactly the user packs with nothing appended, so the default pack is
not always appended. -/
theorem updateResourcePacks_no_jar_found :
    updateResourcePacks ["userpack.zip"] true none = ["userpack.zip"] ∧
    (updateResourcePacks ["userpack.zip"] true none).length = 1 := by
  constructor <;> rfl

/-- C4 (amended): the rebuilt resource-pack list is the user packs in
order, with the default minecraft jar appended last exactly when the
use-default option is enabled and a jar was found; when the option is
disabled, or no jar is found, the list equals the user packs. -/
theorem updateResourcePacks_spec (listPacks : List String) (mc : String) :
    updateResourcePacks listPacks true (some mc) = listPacks ++ [mc] ∧
    updateResourcePacks listPacks true none = listPacks ∧
    updateResourcePacks listPacks false (some mc) = listPacks ∧
    updateResourcePacks listPacks false none = listPacks := by
  refine ⟨rfl, rfl, rfl, rfl⟩

/-- C6: the export thread count stays within the documented 1..512
range: the spinner model admits exactly the integers of [1, 512], and
for any control state whose spinner holds an admitted value,
updateOptions leaves exportThreads within [1, 512]. -/
theorem exportThreads_in_range (st : ExportWindowState) (o : Options)
    (h : threadSpinnerModel.admits st.spinnerThreads) :
    (∀ v : Int, threadSpinnerModel.admits v ↔ 1 ≤ v ∧ v ≤ 512) ∧
    1 ≤ (updateOptions st o).exportThreads ∧
    (updateOptions st o).exportThreads ≤ 512 := by
  refine ⟨fun v => Iff.rfl, ?_, ?_⟩
  · exact h.1
  · exact h.2

/-- Witness for C6: the range facts instantiated on the default control
state, whose spinner holds the default value 8. -/
theorem exportThreads_in_range_witness :
    (∀ v : Int, threadSpinnerModel.admits v ↔ 1 ≤ v ∧ v ≤ 512) ∧
    1 ≤ (updateOptions baseExportWindowState initialOptions).exportThreads ∧
    (updateOptions baseExportWindowState initialOptions).exportThreads ≤ 512 :=
  exportThreads_in_range baseExportWindowState initialOptions (by decide)

/-- C8: the texture pre-scale factor stays in the set of 1, 2, 4, 8, 16:
the combo box offers exactly the items 1x, 2x, 4x, 8x, 16x, and when
the selected item is one of them, updateOptions leaves textureScale a
member of the list 1, 2, 4, 8, 16. -/
theorem textureScale_in_allowed_set (st : ExportWindowState) (o : Options)
    (h : st.cboxTexScaleSelected ∈ cboxTexScaleItems) :
    (updateOptions st o).textureScale ∈ ([1, 2, 4, 8, 16] : List Rat) := by
  have e : (updateOptions st o).textureScale = textureScaleAfter st o := rfl
  rw [e]
  simp only [cboxTexScaleItems, List.mem_cons, List.not_mem_nil, or_false] at h
  rcases h with h | h | h | h | h <;>
    (unfold textureScaleAfter; rw [h];
     simp +decide [parseDecimalList, splitOnChar, digitsToNat])

/-- Witness for C8: the membership instantiated on a state selecting
the 4x combo item. -/
theorem textureScale_in_allowed_set_witness :
    (updateOptions { baseExportWindowState with cboxTexScaleSelected := "4x" }
      initialOptions).textureScale ∈ ([1, 2, 4, 8, 16] : List Rat) :=
  textureScale_in_allowed_set
    { baseExportWindowState with cboxTexScaleSelected := "4x" }
    initialOptions (by decide)

/-- C9: for every map-scale input string, updateOptions sets the scale
option to the parsed value when the text parses as a float, and to the
default 1.0 when parsing fails, so the scale never retains an
unparseable value. -/
theorem scale_parsed_or_default (st : ExportWindowState) (o : Options) :
    (updateOptions st o).scale =
      (parseDecimalList st.textFieldMapScale.data).getD 1 := by
  have e : (updateOptions st o).scale = scaleAfter st := rfl
  rw [e]
  unfold scaleAfter
  cases parseDecimalList st.textFieldMapScale.data <;> rfl

end Jmc2Obj

namespace JmcModels

/-- C7: the None block model generates no geometry unconditionally: for
every chunk processor, boundary delegate, coordinate, block data and
biome, addModel returns the chunk processor unchanged, so nothing is
added to the mesh output. -/
theorem none_addModel_adds_nothing (obj : ChunkProcessor) (chunks : ThreadChunkDeligate)
    (x y z : Int) (data : BlockData) (biome : NamespaceID) :
    None.addModel obj chunks x y z data biome = obj ∧
    (None.addModel obj chunks x y z data biome).faces = obj.faces :=
  ⟨rfl, rfl⟩

end JmcModels
